import Mathlib

/-!
Shallow embedding of the library-inventory core of
`src/assignment/LAB ASSIGNMENT-4 (1).py`: the `Book` dataclass with its
normalization and status transitions, and the `LibraryInventory` store with
its JSON persistence (`save`/`load`) including corruption recovery.

File effects are made explicit: a small `FS` record holds the store's main
JSON file and its `.corrupt` backup slot, a `SaveBehavior` parameter tells
how the environment answers a write (succeed, raise `FileNotFoundError`, or
raise some other exception), and a Boolean tells whether the corrupt-file
rename succeeds. Operations return an `OpResult` recording the exception
re-raised to the caller (if any) next to the final in-memory list and file
state, because the Python code mutates `self.books` in place before some of
its raising points.
-/

/-- Whitespace test of Python's `str.strip()`: space, tab, newline, carriage
return, vertical tab, form feed. -/
def isPySpace (c : Char) : Bool :=
  c = ' ' || c = '\t' || c = '\n' || c = '\r' || c = '\x0b' || c = '\x0c'

/-- Python `str.strip()` on a list of characters: drop leading whitespace,
then trailing whitespace. -/
def pyStripL (l : List Char) : List Char :=
  List.rdropWhile isPySpace (l.dropWhile isPySpace)

/-- Python `str.strip()` on strings. -/
def String.pyStrip (s : String) : String :=
  ⟨pyStripL s.data⟩

/-- Fields of the `Book` dataclass as stored on the object. -/
structure Book where
  title : String
  author : String
  isbn : String
  status : String
deriving DecidableEq, Repr

/-- Constructor `Book(title, author, isbn, status)` followed by
`__post_init__`: `title`, `author` and `isbn` are stripped, and a `status`
other than the two recognized literals is coerced to `"available"`
(`status` itself is not stripped before the membership test). -/
def mkBook (title author isbn status : String) : Book :=
  { title := title.pyStrip
    author := author.pyStrip
    isbn := isbn.pyStrip
    status := if status = "available" ∨ status = "issued" then status else "available" }

/-- A JSON object holding (some of) the four book fields, as consumed by
`Book.from_dict` through `d.get(key, default)`. -/
structure BookDict where
  title : Option String := none
  author : Option String := none
  isbn : Option String := none
  status : Option String := none
deriving DecidableEq, Repr

/-- Method `Book.to_dict`: `dataclasses.asdict`, all four fields present. -/
def Book.to_dict (b : Book) : BookDict :=
  { title := some b.title
    author := some b.author
    isbn := some b.isbn
    status := some b.status }

/-- Classmethod `Book.from_dict`: each field is looked up with a default
(`""`, or `"available"` for status), stripped, and passed to the
constructor, whose `__post_init__` normalizes again. -/
def Book.from_dict (d : BookDict) : Book :=
  mkBook (d.title.getD "").pyStrip (d.author.getD "").pyStrip
    (d.isbn.getD "").pyStrip (d.status.getD "available").pyStrip

/-- Method `Book.issue`: raise `ValueError("Book already issued.")` when the
status is `"issued"`, otherwise set it to `"issued"`. -/
def Book.issue (b : Book) : Except String Book :=
  if b.status = "issued" then .error "Book already issued."
  else .ok { b with status := "issued" }

/-- Method `Book.return_book`: raise `ValueError("Book is not issued.")` when
the status is `"available"`, otherwise set it to `"available"`. -/
def Book.return_book (b : Book) : Except String Book :=
  if b.status = "available" then .error "Book is not issued."
  else .ok { b with status := "available" }

/-- Method `Book.is_available`. -/
def Book.is_available (b : Book) : Bool :=
  b.status = "available"

/-- A persisted document once parsed: either a JSON array of record-like
objects, or valid JSON of any other shape (object, string, number, ...). -/
inductive Doc where
  | arr (items : List BookDict)
  | nonArr
deriving DecidableEq, Repr

/-- Contents of a file on disk: text that parses as JSON, or text on which
`json.load` raises `json.JSONDecodeError`. -/
inductive FileData where
  | parsed (d : Doc)
  | unparseable (raw : String)
deriving DecidableEq, Repr

/-- The two file slots touched by persistence: the store's `json_path` and
the corresponding `.corrupt` backup path. `none` means the file is absent. -/
structure FS where
  main : Option FileData := none
  corrupt : Option FileData := none
deriving DecidableEq, Repr

/-- Exception kinds distinguished by the handlers in `load`:
`FileNotFoundError`, `json.JSONDecodeError`, `ValueError` with its message,
and any other `Exception`. -/
inductive Err where
  | fileNotFound
  | jsonDecode
  | value (msg : String)
  | other
deriving DecidableEq, Repr

/-- How the environment answers a file write (`open(..., "w")` plus
`json.dump`): succeed, raise `FileNotFoundError`, or raise some other
exception. -/
inductive SaveBehavior where
  | ok
  | failFNF
  | failOther
deriving DecidableEq, Repr

/-- Method `LibraryInventory.save`: dump every book's dict as a JSON array to
the main path, overwriting its prior contents; any failure is logged and
re-raised. -/
def save (sb : SaveBehavior) (books : List Book) (fs : FS) : Except Err FS :=
  match sb with
  | .ok => .ok { fs with main := some (.parsed (.arr (books.map Book.to_dict))) }
  | .failFNF => .error .fileNotFound
  | .failOther => .error .other

/-- Outcome of a store operation: the exception re-raised to the caller
(`none` when the call returns normally), the final in-memory book list, and
the final file state. -/
structure OpResult where
  raised : Option Err
  books : List Book
  fs : FS
deriving DecidableEq, Repr

/-- Method `LibraryInventory.load`; `books0` is `self.books` before the call
(it is left in place on the paths that re-raise before assigning it) and
`rb` tells whether the corrupt-file rename succeeds.
The branches mirror the source: a missing target resets to `[]` and
bootstrap-saves inside the main `try`, so only a `FileNotFoundError` from
that save reaches the handler that swallows it and any other save failure is
re-raised by the generic handler; unparseable contents reach the
`json.JSONDecodeError` handler (rename aside with failure swallowed, reset,
best-effort save); parsed non-array contents raise a `ValueError`, which no
specific handler catches, so the generic handler re-raises it. -/
def load (sb : SaveBehavior) (rb : Bool) (books0 : List Book) (fs : FS) : OpResult :=
  match fs.main with
  | none =>
    match save sb [] fs with
    | .ok fs' => ⟨none, [], fs'⟩
    | .error .fileNotFound =>
      match save sb [] fs with
      | .ok fs' => ⟨none, [], fs'⟩
      | .error _ => ⟨none, [], fs⟩
    | .error e => ⟨some e, [], fs⟩
  | some (.unparseable raw) =>
    let fs1 : FS := if rb then { fs with main := none, corrupt := some (.unparseable raw) } else fs
    match save sb [] fs1 with
    | .ok fs2 => ⟨none, [], fs2⟩
    | .error _ => ⟨none, [], fs1⟩
  | some (.parsed .nonArr) =>
    ⟨some (.value "Invalid JSON structure for books (expected list)."), books0, fs⟩
  | some (.parsed (.arr items)) =>
    ⟨none, items.map Book.from_dict, fs⟩

/-- Backup path computed by `load` for a corrupted file:
`json_path.with_suffix(json_path.suffix + ".corrupt")`, on a file name that
splits as `stem ++ sfx` with `sfx` its pathlib suffix. `with_suffix` replaces
the suffix, so the result is the stem followed by the old suffix followed by
`".corrupt"`. -/
def corrupt_name (stem sfx : String) : String :=
  stem ++ (sfx ++ ".corrupt")

/-- Method `LibraryInventory.add_book`: raise on a duplicate ISBN, otherwise
append. No file I/O is performed. -/
def add_book (books : List Book) (fs : FS) (b : Book) : OpResult :=
  if books.any (fun x => x.isbn = b.isbn) then
    ⟨some (.value "Book with same ISBN already exists."), books, fs⟩
  else
    ⟨none, books ++ [b], fs⟩

/-- Method `LibraryInventory.search_by_isbn`: strip the key, return the first
book carrying it. -/
def search_by_isbn (books : List Book) (isbn : String) : Option Book :=
  books.find? (fun b => b.isbn = isbn.pyStrip)

/-- In-place status update of the object returned by `search_by_isbn`: the
first book whose ISBN equals the (already stripped) key gets the new
status. -/
def setStatusFirst (key newStatus : String) : List Book → List Book
  | [] => []
  | b :: rest =>
    if b.isbn = key then { b with status := newStatus } :: rest
    else b :: setStatusFirst key newStatus rest

/-- Method `LibraryInventory.issue_book_by_isbn`: look up, guard, transition
the found object in place, then `save()`; a save failure propagates after the
in-memory mutation. -/
def issue_book_by_isbn (sb : SaveBehavior) (books : List Book) (fs : FS) (isbn : String) :
    OpResult :=
  match search_by_isbn books isbn with
  | none => ⟨some (.value "Book not found."), books, fs⟩
  | some b =>
    if b.is_available = false then ⟨some (.value "Book already issued."), books, fs⟩
    else
      let books' := setStatusFirst isbn.pyStrip "issued" books
      match save sb books' fs with
      | .ok fs' => ⟨none, books', fs'⟩
      | .error e => ⟨some e, books', fs⟩

/-- Method `LibraryInventory.return_book_by_isbn`: symmetric to issuing, with
the `is_available` guard reversed. -/
def return_book_by_isbn (sb : SaveBehavior) (books : List Book) (fs : FS) (isbn : String) :
    OpResult :=
  match search_by_isbn books isbn with
  | none => ⟨some (.value "Book not found."), books, fs⟩
  | some b =>
    if b.is_available = true then ⟨some (.value "Book is not issued."), books, fs⟩
    else
      let books' := setStatusFirst isbn.pyStrip "available" books
      match save sb books' fs with
      | .ok fs' => ⟨none, books', fs'⟩
      | .error e => ⟨some e, books', fs⟩

/-- Pairwise-distinct ISBNs across an in-memory book list. -/
def uniqueIsbns (books : List Book) : Prop :=
  (books.map Book.isbn).Nodup

instance uniqueIsbnsDecidable (books : List Book) : Decidable (uniqueIsbns books) :=
  List.nodupDecidable _

/-- A book whose fields are fixed points of the constructor normalization:
stripped strings and a recognized status. Every book built by `mkBook` (hence
also by `Book.from_dict`) is normalized. -/
def Normalized (b : Book) : Prop :=
  b.title.pyStrip = b.title ∧ b.author.pyStrip = b.author ∧
    b.isbn.pyStrip = b.isbn ∧ (b.status = "available" ∨ b.status = "issued")

instance NormalizedDecidable (b : Book) : Decidable (Normalized b) := by
  unfold Normalized
  infer_instance

/-! Helper lemmas about normalization and the store operations. -/

/-- Stripping a character list twice equals stripping it once. -/
theorem pyStripL_idem (l : List Char) : pyStripL (pyStripL l) = pyStripL l := by
  unfold pyStripL
  have h1 : (List.rdropWhile isPySpace (l.dropWhile isPySpace)).dropWhile isPySpace =
      List.rdropWhile isPySpace (l.dropWhile isPySpace) := by
    rw [List.dropWhile_eq_self_iff]
    intro hl
    have hpre : List.rdropWhile isPySpace (l.dropWhile isPySpace) <+: l.dropWhile isPySpace :=
      List.rdropWhile_prefix _ _
    have hlen : 0 < (l.dropWhile isPySpace).length := lt_of_lt_of_le hl hpre.length_le
    have hget : (List.rdropWhile isPySpace (l.dropWhile isPySpace)).get ⟨0, hl⟩ =
        (l.dropWhile isPySpace).get ⟨0, hlen⟩ := by
      simp only [List.get_eq_getElem]
      exact hpre.getElem hl
    rw [hget]
    exact List.dropWhile_get_zero_not isPySpace l hlen
  rw [h1, List.rdropWhile_idempotent]

/-- Python strip is idempotent. -/
theorem pyStrip_idem (s : String) : s.pyStrip.pyStrip = s.pyStrip :=
  congrArg String.mk (pyStripL_idem s.data)

/-- Pre-stripping the three stripped constructor arguments changes nothing. -/
theorem mkBook_strip_args (t a i s : String) :
    mkBook t.pyStrip a.pyStrip i.pyStrip s = mkBook t a i s := by
  simp [mkBook, pyStrip_idem]

/-- Every constructed book is normalized. -/
theorem mkBook_normalized (t a i s : String) : Normalized (mkBook t a i s) := by
  refine ⟨pyStrip_idem t, pyStrip_idem a, pyStrip_idem i, ?_⟩
  unfold mkBook
  split
  · assumption
  · exact Or.inl rfl

/-- The literal status `"available"` is already stripped. -/
theorem pyStrip_available : ("available" : String).pyStrip = "available" := by decide

/-- The literal status `"issued"` is already stripped. -/
theorem pyStrip_issued : ("issued" : String).pyStrip = "issued" := by decide

/-- Reconstructing a normalized book from its own fields changes nothing. -/
theorem mkBook_eq_self {b : Book} (h : Normalized b) :
    mkBook b.title b.author b.isbn b.status = b := by
  obtain ⟨ht, ha, hi, hs⟩ := h
  unfold mkBook
  rw [ht, ha, hi, if_pos hs]

/-- Serialization round-trips every normalized book. -/
theorem from_dict_to_dict {b : Book} (h : Normalized b) :
    Book.from_dict b.to_dict = b := by
  obtain ⟨ht, ha, hi, hs⟩ := h
  unfold Book.from_dict Book.to_dict
  simp only [Option.getD_some]
  rw [ht, ha, hi]
  rcases hs with hs | hs <;>
    rw [hs] <;> simp [pyStrip_available, pyStrip_issued] <;>
    rw [← hs] <;> exact mkBook_eq_self ⟨ht, ha, hi, by rw [hs]; simp⟩

/-- Updating a status in place never changes the list of ISBNs. -/
theorem setStatusFirst_map_isbn (key st : String) (books : List Book) :
    (setStatusFirst key st books).map Book.isbn = books.map Book.isbn := by
  induction books with
  | nil => rfl
  | cons b rest ih =>
    unfold setStatusFirst
    split <;> simp [ih]

/-- Issuing leaves the book list unchanged or applies the in-place update. -/
theorem issue_books_cases (sb : SaveBehavior) (books : List Book) (fs : FS) (isbn : String) :
    (issue_book_by_isbn sb books fs isbn).books = books ∨
    (issue_book_by_isbn sb books fs isbn).books = setStatusFirst isbn.pyStrip "issued" books := by
  unfold issue_book_by_isbn
  cases h : search_by_isbn books isbn with
  | none => exact Or.inl rfl
  | some b =>
    by_cases hb : b.is_available = false
    · simp [hb]
    · cases sb <;> simp [hb, save]

/-- Returning leaves the book list unchanged or applies the in-place update. -/
theorem return_books_cases (sb : SaveBehavior) (books : List Book) (fs : FS) (isbn : String) :
    (return_book_by_isbn sb books fs isbn).books = books ∨
    (return_book_by_isbn sb books fs isbn).books =
      setStatusFirst isbn.pyStrip "available" books := by
  unfold return_book_by_isbn
  cases h : search_by_isbn books isbn with
  | none => exact Or.inl rfl
  | some b =>
    by_cases hb : b.is_available = true
    · simp [hb]
    · cases sb <;> simp [hb, save]

/-! Claim C1. -/

/-- C1 (amended): identifier uniqueness is an invariant of the store
operations with one caveat forced by the counterexample: it is preserved by
every successful add, by issuing and returning by identifier whatever their
outcome, and by a load of a document that `save` wrote from a store of
normalized books (such a load restores the book list exactly, so uniqueness
carries over); `load` itself performs no duplicate check, so a load of an
arbitrary persisted document is not covered. -/
theorem c1_unique_identifiers_preserved :
    (∀ books fs b, uniqueIsbns books → (add_book books fs b).raised = none →
      uniqueIsbns (add_book books fs b).books) ∧
    (∀ sb books fs isbn, uniqueIsbns books →
      uniqueIsbns (issue_book_by_isbn sb books fs isbn).books) ∧
    (∀ sb books fs isbn, uniqueIsbns books →
      uniqueIsbns (return_book_by_isbn sb books fs isbn).books) ∧
    (∀ sb rb books0 books fs fs', (∀ b ∈ books, Normalized b) →
      save .ok books fs = .ok fs' →
      (load sb rb books0 fs').raised = none ∧ (load sb rb books0 fs').books = books ∧
      (uniqueIsbns books → uniqueIsbns (load sb rb books0 fs').books)) := by
  refine ⟨?_, ?_, ?_, ?_⟩
  · intro books fs b hu hr
    by_cases h : books.any (fun x => x.isbn = b.isbn) = true
    · simp [add_book, h] at hr
    · rw [Bool.not_eq_true] at h
      simp only [add_book, h, Bool.false_eq_true, if_false]
      simp only [uniqueIsbns, List.map_append, List.map_cons, List.map_nil] at *
      rw [List.nodup_append]
      refine ⟨hu, List.nodup_singleton _, ?_⟩
      intro y hy hmem
      simp only [List.mem_singleton] at hmem
      subst hmem
      rw [List.any_eq_false] at h
      obtain ⟨x, hx, hxb⟩ := List.mem_map.mp hy
      exact absurd (by simp [hxb]) (h x hx)
  · intro sb books fs isbn hu
    rcases issue_books_cases sb books fs isbn with h | h <;>
      rw [uniqueIsbns, h]
    · exact hu
    · rw [setStatusFirst_map_isbn]
      exact hu
  · intro sb books fs isbn hu
    rcases return_books_cases sb books fs isbn with h | h <;>
      rw [uniqueIsbns, h]
    · exact hu
    · rw [setStatusFirst_map_isbn]
      exact hu
  · intro sb rb books0 books fs fs' hnorm hsave
    have hfs' : fs' = { fs with main := some (.parsed (.arr (books.map Book.to_dict))) } := by
      simpa [save] using hsave.symm
    have hmain : fs'.main = some (.parsed (.arr (books.map Book.to_dict))) := by
      rw [hfs']
    have hbooks : (books.map Book.to_dict).map Book.from_dict = books := by
      rw [List.map_map]
      have : ∀ x ∈ books, (Book.from_dict ∘ Book.to_dict) x = id x := by
        intro x hx
        exact from_dict_to_dict (hnorm x hx)
      rw [List.map_congr_left this, List.map_id]
    refine ⟨?_, ?_, ?_⟩
    · simp [load, hmain]
    · simp [load, hmain, hbooks]
    · intro hu
      rw [uniqueIsbns]
      simp [load, hmain, hbooks]
      exact hu

/-- C1 fails as stated: `load` checks nothing, so a successful load of a
persisted document holding two records with the same identifier `"9"` yields
a store whose identifiers are not pairwise distinct. -/
theorem c1_load_duplicates_counterexample :
    (load .ok true [] ⟨some (.parsed (.arr [⟨some "T", some "A", some "9", some "available"⟩,
        ⟨some "T", some "A", some "9", some "available"⟩])), none⟩).raised = none ∧
    ¬ uniqueIsbns (load .ok true []
      ⟨some (.parsed (.arr [⟨some "T", some "A", some "9", some "available"⟩,
        ⟨some "T", some "A", some "9", some "available"⟩])), none⟩).books :=
  ⟨rfl, by decide⟩

/-- Concrete instances of the three preserved operations of C1. -/
theorem c1_unique_identifiers_preserved_witness :
    uniqueIsbns (add_book [Book.mk "T" "A" "1" "available"] ⟨none, none⟩
      (Book.mk "U" "B" "2" "available")).books ∧
    uniqueIsbns (issue_book_by_isbn .ok [Book.mk "T" "A" "1" "available"] ⟨none, none⟩ "1").books ∧
    (load .ok true [] ⟨some (.parsed (.arr [⟨some "T", some "A", some "1", some "available"⟩])),
      none⟩).books = [Book.mk "T" "A" "1" "available"] := by
  refine ⟨c1_unique_identifiers_preserved.1 _ _ _ (by decide) (by decide),
    c1_unique_identifiers_preserved.2.1 .ok _ _ _ (by decide), ?_⟩
  exact (c1_unique_identifiers_preserved.2.2.2 .ok true [] [Book.mk "T" "A" "1" "available"]
    ⟨none, none⟩ ⟨some (.parsed (.arr [⟨some "T", some "A", some "1", some "available"⟩])), none⟩
    (by decide) rfl).2.1

/-! Claim C2. -/

/-- C2 (amended): a persistence target whose contents parse as valid JSON but
are not an array makes `load` raise `ValueError`, which only the generic
handler catches: the error is logged and re-raised to the caller, with the
in-memory sequence and both files left untouched — it is not handled like a
parse failure (no corrupt-rename, no reset to empty, no bootstrap save). -/
theorem c2_nonarray_reraised (sb : SaveBehavior) (rb : Bool) (books0 : List Book) (fs : FS)
    (h : fs.main = some (.parsed .nonArr)) :
    load sb rb books0 fs =
      ⟨some (.value "Invalid JSON structure for books (expected list)."), books0, fs⟩ := by
  unfold load
  rw [h]

/-- C2 fails as stated: loading a valid-JSON non-array document raises the
`ValueError` instead of returning normally, and performs no corrupt-rename
(the file state is untouched). -/
theorem c2_nonarray_counterexample :
    (load .ok true [] ⟨some (.parsed .nonArr), none⟩).raised =
      some (.value "Invalid JSON structure for books (expected list).") ∧
    (load .ok true [] ⟨some (.parsed .nonArr), none⟩).fs = ⟨some (.parsed .nonArr), none⟩ :=
  ⟨rfl, rfl⟩

/-- Concrete instance of C2 with a non-empty prior store. -/
theorem c2_nonarray_reraised_witness :
    load .failFNF false [Book.mk "X" "Y" "5" "available"]
        ⟨some (.parsed .nonArr), some (.unparseable "old")⟩ =
      ⟨some (.value "Invalid JSON structure for books (expected list)."),
        [Book.mk "X" "Y" "5" "available"], ⟨some (.parsed .nonArr), some (.unparseable "old")⟩⟩ :=
  c2_nonarray_reraised .failFNF false _ _ rfl

/-! Claim C3. -/

/-- C3 (amended): on a missing persistence target, `load` sets the in-memory
sequence to empty and performs a bootstrap `save` of an empty document; if
that save raises `FileNotFoundError` the failure is swallowed (a second
best-effort save is attempted inside the handler) and `load` returns
successfully with an empty store, but a bootstrap-save failure of any other
kind is logged and re-raised by `load` — not swallowed — with the in-memory
sequence already reset to empty. -/
theorem c3_missing_target_bootstrap (rb : Bool) (books0 : List Book) (fs : FS)
    (h : fs.main = none) :
    load .ok rb books0 fs = ⟨none, [], { fs with main := some (.parsed (.arr [])) }⟩ ∧
    load .failFNF rb books0 fs = ⟨none, [], fs⟩ ∧
    load .failOther rb books0 fs = ⟨some .other, [], fs⟩ := by
  refine ⟨?_, ?_, ?_⟩ <;> simp [load, h, save]

/-- C3 fails as stated: with a missing target and a bootstrap save that
raises an error other than `FileNotFoundError`, `load` re-raises instead of
swallowing the failure. -/
theorem c3_bootstrap_failure_counterexample :
    (load .failOther true [] ⟨none, none⟩).raised = some .other := rfl

/-- Concrete instances of the materializing and re-raising branches of C3. -/
theorem c3_missing_target_bootstrap_witness :
    load .ok true [] ⟨none, none⟩ = ⟨none, [], ⟨some (.parsed (.arr [])), none⟩⟩ ∧
    load .failOther true [] ⟨none, none⟩ = ⟨some .other, [], ⟨none, none⟩⟩ := by
  have h := c3_missing_target_bootstrap true [] ⟨none, none⟩ rfl
  exact ⟨h.1, h.2.2⟩

/-! Claim C4. -/

/-- C4: loading a target with unparseable contents produces an empty
in-memory store and returns without raising, whatever the save behaviour;
when the rename succeeds the bad contents are preserved at the backup slot
(not deleted) and the main slot no longer holds them, the backup name being
the original name with the fixed suffix ".corrupt" appended; when the rename
itself fails, load still succeeds with an empty store. -/
theorem c4_corrupt_recovery (sb : SaveBehavior) (books0 : List Book) (fs : FS) (raw : String)
    (h : fs.main = some (.unparseable raw)) :
    ((load sb true books0 fs).raised = none ∧ (load sb true books0 fs).books = [] ∧
      (load sb true books0 fs).fs.corrupt = some (.unparseable raw) ∧
      (load sb true books0 fs).fs.main ≠ some (.unparseable raw)) ∧
    ((load sb false books0 fs).raised = none ∧ (load sb false books0 fs).books = []) ∧
    (∀ stem sfx, corrupt_name stem sfx = (stem ++ sfx) ++ ".corrupt") := by
  refine ⟨?_, ?_, ?_⟩
  · cases sb <;> simp [load, h, save]
  · cases sb <;> simp [load, h, save]
  · intro stem sfx
    simp [corrupt_name, String.append_assoc]

/-- Concrete instance of the corrupt-recovery branch of C4. -/
theorem c4_corrupt_recovery_witness :
    (load .ok true [] ⟨some (.unparseable "garbage"), none⟩).raised = none ∧
    (load .ok true [] ⟨some (.unparseable "garbage"), none⟩).books = [] ∧
    (load .ok true [] ⟨some (.unparseable "garbage"), none⟩).fs.corrupt =
      some (.unparseable "garbage") := by
  have h := c4_corrupt_recovery .ok [] ⟨some (.unparseable "garbage"), none⟩ "garbage" rfl
  exact ⟨h.1.1, h.1.2.1, h.1.2.2.1⟩

/-! Claim C5. -/

/-- C5: issuing an available record succeeds, makes it unavailable and leaves
title, author and identifier unchanged; issuing an issued record fails with
the "already issued" error (the record itself untouched); returning an issued
record succeeds and makes it available again; returning an available record
fails with the "not issued" error. -/
theorem c5_record_transitions (b : Book) :
    (b.status = "available" →
      b.issue = Except.ok ⟨b.title, b.author, b.isbn, "issued"⟩ ∧
        (Book.mk b.title b.author b.isbn "issued").is_available = false) ∧
    (b.status = "issued" → b.issue = Except.error "Book already issued.") ∧
    (b.status = "issued" →
      b.return_book = Except.ok ⟨b.title, b.author, b.isbn, "available"⟩ ∧
        (Book.mk b.title b.author b.isbn "available").is_available = true) ∧
    (b.status = "available" → b.return_book = Except.error "Book is not issued.") := by
  refine ⟨fun h => ⟨?_, ?_⟩, fun h => ?_, fun h => ⟨?_, ?_⟩, fun h => ?_⟩ <;>
    simp [Book.issue, Book.return_book, Book.is_available, h]

/-- Concrete issue and return transitions of C5. -/
theorem c5_record_transitions_witness :
    (Book.mk "Dune" "Herbert" "111" "available").issue =
      Except.ok (Book.mk "Dune" "Herbert" "111" "issued") ∧
    (Book.mk "Dune" "Herbert" "111" "issued").return_book =
      Except.ok (Book.mk "Dune" "Herbert" "111" "available") :=
  ⟨((c5_record_transitions (Book.mk "Dune" "Herbert" "111" "available")).1 rfl).1,
    ((c5_record_transitions (Book.mk "Dune" "Herbert" "111" "issued")).2.2.1 rfl).1⟩

/-! Claim C6. -/

/-- C6: every failed validation leaves the store's in-memory state and its
file state exactly as they were: adding a record whose identifier duplicates
an existing one fails with the duplicate error whatever its title and author,
and the not-found and wrong-status guards of issuing and returning fail with
their respective errors before any mutation or save. -/
theorem c6_failed_validation_unchanged (books : List Book) (fs : FS) :
    (∀ b : Book, (∃ x ∈ books, x.isbn = b.isbn) →
      add_book books fs b =
        ⟨some (.value "Book with same ISBN already exists."), books, fs⟩) ∧
    (∀ sb isbn, search_by_isbn books isbn = none →
      issue_book_by_isbn sb books fs isbn = ⟨some (.value "Book not found."), books, fs⟩ ∧
      return_book_by_isbn sb books fs isbn = ⟨some (.value "Book not found."), books, fs⟩) ∧
    (∀ sb isbn b, search_by_isbn books isbn = some b → b.is_available = false →
      issue_book_by_isbn sb books fs isbn =
        ⟨some (.value "Book already issued."), books, fs⟩) ∧
    (∀ sb isbn b, search_by_isbn books isbn = some b → b.is_available = true →
      return_book_by_isbn sb books fs isbn =
        ⟨some (.value "Book is not issued."), books, fs⟩) := by
  refine ⟨?_, ?_, ?_, ?_⟩
  · rintro b ⟨x, hx, hisbn⟩
    have : books.any (fun x => x.isbn = b.isbn) = true :=
      List.any_eq_true.mpr ⟨x, hx, by simp [hisbn]⟩
    simp [add_book, this]
  · intro sb isbn h
    exact ⟨by simp [issue_book_by_isbn, h], by simp [return_book_by_isbn, h]⟩
  · intro sb isbn b h hb
    simp [issue_book_by_isbn, h, hb]
  · intro sb isbn b h hb
    simp [return_book_by_isbn, h, hb]

/-- Concrete duplicate-add and already-issued failures of C6. -/
theorem c6_failed_validation_unchanged_witness :
    add_book [Book.mk "T" "A" "9" "available"] ⟨none, none⟩ (Book.mk "U" "B" "9" "issued") =
      ⟨some (.value "Book with same ISBN already exists."),
        [Book.mk "T" "A" "9" "available"], ⟨none, none⟩⟩ ∧
    issue_book_by_isbn .ok [Book.mk "T" "A" "9" "issued"] ⟨none, none⟩ "9" =
      ⟨some (.value "Book already issued."), [Book.mk "T" "A" "9" "issued"], ⟨none, none⟩⟩ :=
  ⟨(c6_failed_validation_unchanged [Book.mk "T" "A" "9" "available"] ⟨none, none⟩).1 _
      (by decide),
    (c6_failed_validation_unchanged [Book.mk "T" "A" "9" "issued"] ⟨none, none⟩).2.2.1 .ok "9"
      (Book.mk "T" "A" "9" "issued") (by decide) (by decide)⟩

/-! Claim C7. -/

/-- C7: constructing a record and round-tripping it through serialization
yields a record equal to the original in all four fields, and the
construction-time normalization is idempotent: reconstructing a constructed
record from its own fields changes nothing. -/
theorem c7_serialize_roundtrip (t a i s : String) :
    Book.from_dict (Book.to_dict (mkBook t a i s)) = mkBook t a i s ∧
      mkBook (mkBook t a i s).title (mkBook t a i s).author (mkBook t a i s).isbn
        (mkBook t a i s).status = mkBook t a i s :=
  ⟨from_dict_to_dict (mkBook_normalized t a i s), mkBook_eq_self (mkBook_normalized t a i s)⟩

/-! Claim C8. -/

/-- C8 fails as stated: the constructor does not trim `status` — a map whose
status value is `" issued"` deserializes to status `"issued"` because
`from_dict` strips it first, while constructing from the very same field
values coerces the untrimmed `" issued"` to `"available"`, so deserialization
does not equal construction on the raw field values. -/
theorem c8_status_trim_counterexample :
    (Book.from_dict ⟨some "t", some "a", some "i", some " issued"⟩).status = "issued" ∧
    (mkBook "t" "a" "i" " issued").status = "available" := by
  decide

/-- C8 (amended): the constructor trims title, author and identifier but not
status, coercing a status that is not exactly one of the two recognized
values to the default; deserialization strips every retrieved value
(substituting empty strings for missing title/author/identifier keys and the
default status for a missing status key) and then constructs, so for every
input map it equals construction applied to the defaulted field values with
the status trimmed first. -/
theorem c8_deserialize_trimmed_construct (d : BookDict) :
    Book.from_dict d =
      mkBook (d.title.getD "") (d.author.getD "") (d.isbn.getD "")
        ((d.status.getD "available").pyStrip) :=
  mkBook_strip_args _ _ _ _

/-! Claim C9. -/

/-- C9: a successful issue (symmetrically, return) by identifier transitions
the found record in place and synchronously persists the entire store to the
target before returning; when the save fails the failure propagates to the
caller with the in-memory transition kept (no rollback) and the file state
untouched; a successful add, by contrast, only appends in memory and leaves
the file state untouched. -/
theorem c9_persistence_asymmetry (books : List Book) (fs : FS) (isbn : String) :
    (∀ b, search_by_isbn books isbn = some b → b.is_available = true →
      issue_book_by_isbn .ok books fs isbn =
        ⟨none, setStatusFirst isbn.pyStrip "issued" books,
          { fs with main := some (.parsed (.arr
              ((setStatusFirst isbn.pyStrip "issued" books).map Book.to_dict))) }⟩ ∧
      ∀ sb, sb ≠ .ok → ∃ e, issue_book_by_isbn sb books fs isbn =
        ⟨some e, setStatusFirst isbn.pyStrip "issued" books, fs⟩) ∧
    (∀ b, search_by_isbn books isbn = some b → b.is_available = false →
      return_book_by_isbn .ok books fs isbn =
        ⟨none, setStatusFirst isbn.pyStrip "available" books,
          { fs with main := some (.parsed (.arr
              ((setStatusFirst isbn.pyStrip "available" books).map Book.to_dict))) }⟩ ∧
      ∀ sb, sb ≠ .ok → ∃ e, return_book_by_isbn sb books fs isbn =
        ⟨some e, setStatusFirst isbn.pyStrip "available" books, fs⟩) ∧
    (∀ b : Book, books.any (fun x => x.isbn = b.isbn) = false →
      add_book books fs b = ⟨none, books ++ [b], fs⟩) := by
  refine ⟨?_, ?_, ?_⟩
  · intro b h hb
    refine ⟨by simp [issue_book_by_isbn, h, hb, save], ?_⟩
    intro sb hsb
    cases sb with
    | ok => exact absurd rfl hsb
    | failFNF => exact ⟨.fileNotFound, by simp [issue_book_by_isbn, h, hb, save]⟩
    | failOther => exact ⟨.other, by simp [issue_book_by_isbn, h, hb, save]⟩
  · intro b h hb
    refine ⟨by simp [return_book_by_isbn, h, hb, save], ?_⟩
    intro sb hsb
    cases sb with
    | ok => exact absurd rfl hsb
    | failFNF => exact ⟨.fileNotFound, by simp [return_book_by_isbn, h, hb, save]⟩
    | failOther => exact ⟨.other, by simp [return_book_by_isbn, h, hb, save]⟩
  · intro b h
    simp [add_book, h]

/-- Concrete issue-then-persist and add-without-persist instances of C9. -/
theorem c9_persistence_asymmetry_witness :
    issue_book_by_isbn .ok [Book.mk "T" "A" "9" "available"] ⟨none, none⟩ "9" =
      ⟨none, [Book.mk "T" "A" "9" "issued"],
        ⟨some (.parsed (.arr [⟨some "T", some "A", some "9", some "issued"⟩])), none⟩⟩ ∧
    add_book [Book.mk "T" "A" "9" "available"] ⟨none, none⟩ (Book.mk "U" "B" "8" "available") =
      ⟨none, [Book.mk "T" "A" "9" "available", Book.mk "U" "B" "8" "available"], ⟨none, none⟩⟩ := by
  have h := c9_persistence_asymmetry [Book.mk "T" "A" "9" "available"] ⟨none, none⟩ "9"
  exact ⟨(h.1 (Book.mk "T" "A" "9" "available") (by decide) (by decide)).1,
    h.2.2 _ (by decide)⟩

/-! Claim C10. -/

/-- C10: the store performs no emptiness validation on add — an add returns
normally exactly when no existing record carries the new record's identifier,
in which case the record is appended unchanged; in particular the constructor
maps all-whitespace title, author and identifier to empty strings and such a
record is accepted whenever no existing record has the empty identifier. -/
theorem c10_add_no_emptiness_check (books : List Book) (fs : FS) (b : Book) :
    ((add_book books fs b).raised = none ↔ ∀ x ∈ books, x.isbn ≠ b.isbn) ∧
    ((∀ x ∈ books, x.isbn ≠ b.isbn) → add_book books fs b = ⟨none, books ++ [b], fs⟩) ∧
    mkBook " " "" "  " "available" = ⟨"", "", "", "available"⟩ := by
  have hfalse : (∀ x ∈ books, x.isbn ≠ b.isbn) →
      books.any (fun x => x.isbn = b.isbn) = false := by
    intro hall
    rw [List.any_eq_false]
    intro x hx
    simp [hall x hx]
  refine ⟨⟨?_, ?_⟩, ?_, by decide⟩
  · intro hr x hx hb
    have hane : books.any (fun x => x.isbn = b.isbn) = true :=
      List.any_eq_true.mpr ⟨x, hx, by simp [hb]⟩
    simp [add_book, hane] at hr
  · intro hall
    simp [add_book, hfalse hall]
  · intro hall
    simp [add_book, hfalse hall]

/-- Concrete all-empty add of C10. -/
theorem c10_add_no_emptiness_check_witness :
    add_book [Book.mk "T" "A" "9" "available"] ⟨none, none⟩ (mkBook "" "" "" "available") =
      ⟨none, [Book.mk "T" "A" "9" "available", Book.mk "" "" "" "available"], ⟨none, none⟩⟩ :=
  (c10_add_no_emptiness_check [Book.mk "T" "A" "9" "available"] ⟨none, none⟩
    (mkBook "" "" "" "available")).2.1 (by decide)
